import Mathlib

/-!
Shallow embedding of `dz_validator_pda` (`src/main.rs`), a Solana CLI that
derives a validator deposit PDA, checks gossip liveness, queries balances and
funds the PDA.  External services (RPC cluster-node listing, balance query,
blockhash fetch, transaction submission, keypair file loading) are modelled as
pre-supplied outcomes in an `Env` record; the side effects the program performs
are recorded as an ordered event trace.  Machine bytes are `Nat`s < 256;
`f64` amounts are modelled by `F64` below.
-/

namespace DZ

/-- A byte, modelled as a natural number (values used are < 256). -/
abbrev Byte := Nat

/-- A byte string. -/
abbrev Bytes := List Nat

/-- The 58-character base58 alphabet used by `validate_base58` in
`src/main.rs` (excludes `0`, `O`, `I`, `l`). -/
def base58Alphabet : List Char :=
  "123456789ABCDEFGHJKLMNPQRSTUVWXYZabcdefghijkmnopqrstuvwxyz".toList

/-- Index of a character in the base58 alphabet, `none` if it is not a
base58 character (models the per-character lookup of the `bs58` crate). -/
def base58Index (c : Char) : Option Nat :=
  base58Alphabet.findIdx? (fun a => a == c)

/-- Big-endian base-256 digits of `n`, computed with explicit fuel so that the
definition is structural and kernel-evaluable.  For `fuel ≥` the number of
digits of `n` this is the exact minimal big-endian byte string of `n`. -/
def natToBEBytesAux : Nat → Nat → Bytes
  | 0, _ => []
  | fuel + 1, n => if n = 0 then [] else natToBEBytesAux fuel (n / 256) ++ [n % 256]

/-- Big-endian base-58 digits of `n`, with explicit fuel (same scheme as
`natToBEBytesAux`). -/
def natToB58Aux : Nat → Nat → List Nat
  | 0, _ => []
  | fuel + 1, n => if n = 0 then [] else natToB58Aux fuel (n / 58) ++ [n % 58]

/-- Base58 decoding as performed by `bs58::decode(..).into_vec()`: every
character must be in the alphabet (else an error, modelled by `none`); the
string is read as a big-endian base-58 number and each leading `1` contributes
one leading zero byte.  The fuel `s.length` bounds the byte count: a base58
string of `k` characters decodes to at most `k` bytes. -/
def base58Decode (s : String) : Option Bytes :=
  match s.toList.mapM base58Index with
  | none => none
  | some ds =>
      let n := ds.foldl (fun acc d => acc * 58 + d) 0
      let zeros := (s.toList.takeWhile (fun c => c == '1')).length
      some (List.replicate zeros 0 ++ natToBEBytesAux s.toList.length n)

/-- Base58 encoding (`Pubkey::to_string`): leading zero bytes become `1`s and
the remaining big-endian value is written in base58.  Fuel `2 * b.length`
suffices since `256 ^ L < 58 ^ (2 L)`. -/
def base58Encode (b : Bytes) : String :=
  let zeros := (b.takeWhile (fun x => x == 0)).length
  let n := b.foldl (fun acc x => acc * 256 + x) 0
  String.mk (List.replicate zeros '1' ++
    (natToB58Aux (2 * b.length) n).map (fun d => base58Alphabet.getD d '1'))

/-- Models `address_str.trim().is_empty()` from `src/main.rs`: true exactly
when every character of the string is whitespace (in particular for the empty
string). -/
def isBlank (s : String) : Bool :=
  s.toList.all Char.isWhitespace

/-- `validate_base58` from `src/main.rs` (lines 34–53): rejects strings that
are empty after trimming, then rejects the first character outside the base58
alphabet; the final `bs58::decode` check cannot fail once every character is in
the alphabet. -/
def validate_base58 (addressStr : String) : Except String Unit :=
  if isBlank addressStr then
    Except.error "Address cannot be empty"
  else
    match addressStr.toList.find? (fun ch => !(base58Alphabet.contains ch)) with
    | some _ => Except.error "Invalid base58 character found in address"
    | none =>
        match base58Decode addressStr with
        | none => Except.error "Invalid base58 encoding"
        | some _ => Except.ok ()

/-- `parse_pubkey` from `src/main.rs` (lines 62–65), i.e.
`Pubkey::from_str`: at most 44 characters, base58-decodable, and the decoded
byte string must be exactly 32 bytes long. -/
def parse_pubkey (addressStr : String) : Except String Bytes :=
  if addressStr.length > 44 then
    Except.error "Invalid pubkey format: string too long"
  else
    match base58Decode addressStr with
    | none => Except.error "Invalid pubkey format: invalid base58"
    | some b =>
        if b.length = 32 then Except.ok b
        else Except.error "Invalid pubkey format: wrong size"

/-! ## PDA derivation (`Pubkey::find_program_address`)

The SHA-256 hash and the ed25519 on-curve test are cryptographic primitives of
the platform library; they are abstracted as an oracle, over which every
derivation theorem is universally quantified. -/

/-- Oracle for the cryptographic primitives used by PDA derivation. -/
structure HashOracle where
  sha256 : Bytes → Bytes
  isOnCurve : Bytes → Bool

/-- Error kinds of `Pubkey::create_program_address`. -/
inductive PubkeyError
  | maxSeedLengthExceeded
  | maxSeedsExceeded
  | invalidSeeds
deriving DecidableEq

/-- The fixed marker bytes `"ProgramDerivedAddress"` appended by
`create_program_address`. -/
def pdaMarker : Bytes := "ProgramDerivedAddress".toList.map Char.toNat

/-- `Pubkey::create_program_address`: checks each seed is at most 32 bytes and
that there are at most 16 seeds, then hashes
`seeds ‖ program_id ‖ "ProgramDerivedAddress"`; an on-curve hash is rejected
with `InvalidSeeds`, an off-curve hash is the derived address. -/
def create_program_address (o : HashOracle) (seeds : List Bytes) (programId : Bytes) :
    Except PubkeyError Bytes :=
  if seeds.any (fun s => s.length > 32) then
    Except.error PubkeyError.maxSeedLengthExceeded
  else if seeds.length > 16 then
    Except.error PubkeyError.maxSeedsExceeded
  else
    let h := o.sha256 (seeds.foldr (fun s acc => s ++ acc) [] ++ programId ++ pdaMarker)
    if o.isOnCurve h then Except.error PubkeyError.invalidSeeds
    else Except.ok h

/-- The bump loop of `Pubkey::try_find_program_address`: the first argument is
both the remaining fuel and the current bump value, so the bumps tried are
`255, 254, …, 1`.  On `InvalidSeeds` the next bump is tried; any other error
aborts the search. -/
def tryFindLoop (o : HashOracle) (seeds : List Bytes) (programId : Bytes) :
    Nat → Option (Bytes × Nat)
  | 0 => none
  | b + 1 =>
      match create_program_address o (seeds ++ [[b + 1]]) programId with
      | Except.ok addr => some (addr, b + 1)
      | Except.error PubkeyError.invalidSeeds => tryFindLoop o seeds programId b
      | Except.error _ => none

/-- `Pubkey::try_find_program_address`: iterate the bump from 255 downward. -/
def try_find_program_address (o : HashOracle) (seeds : List Bytes) (programId : Bytes) :
    Option (Bytes × Nat) :=
  tryFindLoop o seeds programId 255

/-- `Pubkey::find_program_address`; the `None` case models the library panic
"Unable to find a viable program address bump seed". -/
def find_program_address (o : HashOracle) (seeds : List Bytes) (programId : Bytes) :
    Option (Bytes × Nat) :=
  try_find_program_address o seeds programId

/-- `REVENUE_DISTRIBUTION_PROGRAM_ID` from `src/main.rs` line 10: the base58
decoding of `dzrevZC94tBLwuHw1dyynZxaXTWyp7yocsinyEVPtt4`. -/
def REVENUE_DISTRIBUTION_PROGRAM_ID : Bytes :=
  (base58Decode "dzrevZC94tBLwuHw1dyynZxaXTWyp7yocsinyEVPtt4").getD []

/-- The fixed seed bytes `b"solana_validator_deposit"`. -/
def depositSeed : Bytes := "solana_validator_deposit".toList.map Char.toNat

/-- `generate_deposit_pda` from `src/main.rs` (lines 19–25): the first
component of `find_program_address` on seeds
`[b"solana_validator_deposit", validator_id]` under the fixed program id.
`none` models the (practically unreachable) library panic. -/
def generate_deposit_pda (o : HashOracle) (validatorId : Bytes) : Option Bytes :=
  (find_program_address o [depositSeed, validatorId] REVENUE_DISTRIBUTION_PROGRAM_ID).map
    Prod.fst

/-! ## Amounts (`f64`)

The CLI parses the amount with `str::parse::<f64>` and manipulates it with
`<= 0.0`, `* 1_000_000_000.0` and `as u64`.  IEEE-754 doubles are modelled as
`nan`, the two infinities, or a finite exact fraction; the multiplication by
the scale rounds the exact product to the nearest binary64 value (ties to
even, overflow to infinity), exactly as the `f64` multiply does. -/

/-- An exact fraction with positive denominator.  Every finite `f64` is such a
fraction (with a power-of-two denominator); keeping the exact value makes the
arithmetic below kernel-computable. -/
structure Frac where
  num : Int
  den : Nat
  den_pos : 0 < den

/-- The rational value of a fraction. -/
def Frac.val (f : Frac) : ℚ := (f.num : ℚ) / (f.den : ℚ)

inductive F64
  | nan
  | posInf
  | negInf
  | finite (f : Frac)

/-- The check `amount <= 0.0` (IEEE semantics: false for NaN); for a finite
value with positive denominator this is the sign of the numerator. -/
def F64.leZero : F64 → Bool
  | .nan => false
  | .posInf => false
  | .negInf => true
  | .finite f => f.num ≤ 0

/-- Floor of log2, with explicit fuel so the definition is structural and
kernel-evaluable (exact for `fuel ≥ n`). -/
def log2fuel : Nat → Nat → Nat
  | 0, _ => 0
  | fuel + 1, n => if 2 ≤ n then log2fuel fuel (n / 2) + 1 else 0

/-- `⌊log2 n⌋` for `n ≥ 1` (0 at 0). -/
def natLog2 (n : Nat) : Nat := log2fuel n n

/-- `⌊log2 (n / d)⌋` for `n, d ≥ 1`: the candidate `⌊log2 n⌋ - ⌊log2 d⌋` is
off by at most one, fixed by testing `2^e ≤ n/d` exactly. -/
def ilog2 (n d : Nat) : Int :=
  if 0 ≤ (natLog2 n : Int) - (natLog2 d : Int) then
    if d * 2 ^ ((natLog2 n : Int) - (natLog2 d : Int)).toNat ≤ n then
      (natLog2 n : Int) - (natLog2 d : Int)
    else (natLog2 n : Int) - (natLog2 d : Int) - 1
  else
    if d ≤ n * 2 ^ (-((natLog2 n : Int) - (natLog2 d : Int))).toNat then
      (natLog2 n : Int) - (natLog2 d : Int)
    else (natLog2 n : Int) - (natLog2 d : Int) - 1

/-- Nearest integer to `n / d`, ties to even (`d ≥ 1`). -/
def roundHalfEven (n d : Nat) : Nat :=
  let q := n / d
  let r := n % d
  if 2 * r < d then q
  else if d < 2 * r then q + 1
  else if q % 2 = 0 then q else q + 1

/-- Round the positive rational `n / d` to the nearest binary64 value
(round-to-nearest, ties to even): the ulp exponent is `⌊log2 (n/d)⌋ - 52`,
clamped below at the subnormal ulp `2^-1074`; the scaled mantissa is rounded
half-to-even; results of `2^1024` or more overflow (`none`, i.e. infinity). -/
def roundPosF64 (n d : Nat) : Option Frac :=
  let p : Int := max (ilog2 n d - 52) (-1074)
  if 0 ≤ p then
    let m := roundHalfEven n (d * 2 ^ p.toNat)
    if m * 2 ^ p.toNat < 2 ^ 1024 then some ⟨(m * 2 ^ p.toNat : Nat), 1, Nat.one_pos⟩
    else none
  else
    some ⟨(roundHalfEven (n * 2 ^ (-p).toNat) d : Nat), 2 ^ (-p).toNat,
      Nat.two_pow_pos _⟩

/-- Round an exact rational to the nearest binary64 value; negative values by
sign symmetry, overflow to the corresponding infinity. -/
def roundF64 (f : Frac) : F64 :=
  if f.num = 0 then F64.finite ⟨0, 1, Nat.one_pos⟩
  else if 0 < f.num then
    match roundPosF64 f.num.toNat f.den with
    | some g => F64.finite g
    | none => F64.posInf
  else
    match roundPosF64 (-f.num).toNat f.den with
    | some g => F64.finite ⟨-g.num, g.den, g.den_pos⟩
    | none => F64.negInf

/-- The multiplication `amount_sol * 1_000_000_000.0`: the IEEE binary64
product, i.e. the exact product rounded to the nearest representable value
(ties to even, overflow to infinity).  The scale `1e9` is itself exactly
representable, so rounding the exact rational product is exactly the `f64`
multiplication. -/
def F64.mulScale : F64 → F64
  | .nan => .nan
  | .posInf => .posInf
  | .negInf => .negInf
  | .finite f => roundF64 ⟨f.num * 1000000000, f.den, f.den_pos⟩

/-- The saturating cast `as u64`: NaN and nonpositive values go to 0, `+∞` and
too-large values to `2^64 - 1`, positive finite values truncate toward zero
(`num.toNat / den` is exactly that truncation). -/
def F64.toU64 : F64 → Nat
  | .nan => 0
  | .posInf => 2 ^ 64 - 1
  | .negInf => 0
  | .finite f => if f.num ≤ 0 then 0 else min (f.num.toNat / f.den) (2 ^ 64 - 1)

/-- The conversion `(amount_sol * 1_000_000_000.0) as u64` from
`src/main.rs` lines 142 and 339. -/
def solToLamports (amountSol : F64) : Nat :=
  amountSol.mulScale.toU64

/-! ## Side effects and the external environment -/

/-- One observable side effect of a program run, in order of occurrence.
`derivePda` records a call to `generate_deposit_pda` (a pure computation, but
recorded so that theorems can speak about whether derivation was attempted). -/
inductive Event
  | getClusterNodes
  | getBalance
  | readKeypair
  | getLatestBlockhash
  | buildAndSign (lamports : Nat)
  | sendTransaction (lamports : Nat)
  | derivePda
  | panicked
  | println (s : String)
  | eprintln (s : String)
deriving DecidableEq

/-- Pre-supplied outcomes of every external call a run may make, plus the
cryptographic oracle for derivation.  Each field is the result the
corresponding external service would return if called. -/
structure Env where
  clusterNodes : Except String (List String)
  keypairLoad : Except String Bytes
  blockhash : Except String String
  sendResult : Except String String
  balance : Except String Nat
  oracle : HashOracle

/-- `is_validator_in_gossip` from `src/main.rs` (lines 193–208): fetch the
cluster nodes and test membership of the validator id by textual equality of
its base58 encoding. -/
def is_validator_in_gossip (env : Env) (validatorId : Bytes) :
    Except String Bool × List Event :=
  match env.clusterNodes with
  | Except.error e =>
      (Except.error ("Failed to get cluster nodes: " ++ e), [Event.getClusterNodes])
  | Except.ok nodes =>
      (Except.ok (nodes.contains (base58Encode validatorId)), [Event.getClusterNodes])

/-- `should_cancel_pda_funding` from `src/main.rs` (lines 91–107):
present → `Ok(false)` (proceed); absent → `Ok(true)` (cancel);
lookup error → `Ok(true)` (cancel, fail-closed). -/
def should_cancel_pda_funding (env : Env) (validatorId : Bytes) :
    Except String Bool × List Event :=
  match is_validator_in_gossip env validatorId with
  | (Except.ok true, evs) =>
      (Except.ok false,
        evs ++ [Event.println "Validator is present in Solana gossip network - proceeding with funding"])
  | (Except.ok false, evs) =>
      (Except.ok true,
        evs ++ [Event.println "Validator is NOT found in Solana gossip network - cancelling funding",
                Event.println "This validator may not be active or properly configured."])
  | (Except.error e, evs) =>
      (Except.ok true,
        evs ++ [Event.println ("Error checking gossip network: " ++ e ++ " - cancelling funding for safety")])

/-- `pda_fund_address` from `src/main.rs` (lines 119–183): liveness gate,
lamport conversion, keypair load, PDA derivation, blockhash fetch, transfer
construction and signing, submission.  The `panicked` event models the
`find_program_address` panic (unreachable for any real oracle). -/
def pda_fund_address (env : Env) (validatorId : Bytes) (keypairPath : String)
    (amountSol : F64) : Except String String × List Event :=
  match should_cancel_pda_funding env validatorId with
  | (Except.ok true, evs) =>
      (Except.error "Funding cancelled: Validator is not in Solana gossip network", evs)
  | (Except.error e, evs) =>
      (Except.error ("Failed to check gossip status: " ++ e), evs)
  | (Except.ok false, evs) =>
      let amountLamports := solToLamports amountSol
      match env.keypairLoad with
      | Except.error e =>
          (Except.error ("Failed to read keypair from " ++ keypairPath ++ ": " ++ e),
            evs ++ [Event.readKeypair])
      | Except.ok _keypair =>
          match generate_deposit_pda env.oracle validatorId with
          | none => (Except.error "panicked: Unable to find a viable program address bump seed",
              evs ++ [Event.readKeypair, Event.derivePda, Event.panicked])
          | some _pda =>
              match env.blockhash with
              | Except.error e =>
                  (Except.error ("Failed to get recent blockhash: " ++ e),
                    evs ++ [Event.readKeypair, Event.derivePda, Event.getLatestBlockhash])
              | Except.ok _bh =>
                  match env.sendResult with
                  | Except.error e =>
                      (Except.error ("Failed to send transaction: " ++ e),
                        evs ++ [Event.readKeypair, Event.derivePda, Event.getLatestBlockhash,
                                Event.buildAndSign amountLamports,
                                Event.sendTransaction amountLamports])
                  | Except.ok sig =>
                      (Except.ok sig,
                        evs ++ [Event.readKeypair, Event.derivePda, Event.getLatestBlockhash,
                                Event.buildAndSign amountLamports,
                                Event.sendTransaction amountLamports])

/-! ## The CLI (`main` in `src/main.rs`, lines 211–363)

`mainRun` takes the argv list and, separately, the outcome of
`args[4].parse::<f64>()` (the one standard-library call of `main` modelled as
an input; `Except.error ()` is a parse failure).  The result is the process
exit code (0 success, 1 error, 101 for the modelled derivation panic) together
with the event trace. -/

/-- The `pda-address` branch of `main` (lines 269–289): print, query gossip
(outcome affects only the printed diagnostics), print the PDA; exit 0. -/
def pdaAddressBranch (env : Env) (address : String) (validatorId depositKey : Bytes) :
    Nat × List Event :=
  let pre := [Event.println ("Validator pubkey " ++ address),
              Event.println "Checking if validator is in gossip network..."]
  match is_validator_in_gossip env validatorId with
  | (Except.ok true, evs) =>
      (0, pre ++ evs ++
        [Event.println "Validator is present in Solana gossip network",
         Event.println ("PDA Address: " ++ base58Encode depositKey)])
  | (Except.ok false, evs) =>
      (0, pre ++ evs ++
        [Event.println "Validator is NOT found in Solana gossip network",
         Event.println "This validator may not be active or properly configured.",
         Event.println ("PDA Address: " ++ base58Encode depositKey),
         Event.println "Warning: Funding this PDA may not be effective if the validator is not active."])
  | (Except.error e, evs) =>
      (0, pre ++ evs ++
        [Event.println ("Error checking gossip network: " ++ e),
         Event.println ("PDA Address: " ++ base58Encode depositKey),
         Event.println "Warning: Unable to verify validator status - proceed with caution."])

/-- The `pda-balance` branch of `main` (lines 290–319): print, query gossip
(non-fatal, diagnostics only), then query the balance; exit 1 exactly when the
balance query fails. -/
def pdaBalanceBranch (env : Env) (address : String) (validatorId depositKey : Bytes) :
    Nat × List Event :=
  let pre := [Event.println ("Validator pubkey " ++ address),
              Event.println "Checking if validator is in gossip network..."]
  let gossipEvs :=
    match is_validator_in_gossip env validatorId with
    | (Except.ok true, evs) =>
        evs ++ [Event.println "Validator is present in Solana gossip network"]
    | (Except.ok false, evs) =>
        evs ++ [Event.println "Validator is NOT found in Solana gossip network",
                Event.println "This validator may not be active or properly configured.",
                Event.println "Warning: This PDA may not be effective if the validator is not active."]
    | (Except.error e, evs) =>
        evs ++ [Event.println ("Error checking gossip network: " ++ e),
                Event.println "Warning: Unable to verify validator status - proceed with caution."]
  match env.balance with
  | Except.ok bal =>
      (0, pre ++ gossipEvs ++
        [Event.getBalance,
         Event.println ("PDA Address: " ++ base58Encode depositKey),
         Event.println ("PDA Balance: " ++ toString bal ++ " lamports")])
  | Except.error e =>
      (1, pre ++ gossipEvs ++
        [Event.getBalance, Event.eprintln ("Error getting balance: " ++ e)])

/-- The `pda-fund-address` branch of `main` (lines 320–356): validate the
parsed amount (reject parse failure or `amount <= 0.0` with exit 1 before any
network call), then print and run `pda_fund_address`. -/
def pdaFundBranch (env : Env) (address keypairPath : String)
    (validatorId depositKey : Bytes) (amountParse : Except Unit F64) :
    Nat × List Event :=
  match amountParse with
  | Except.error _ =>
      (1, [Event.eprintln "Error: Invalid amount",
           Event.eprintln "Amount must be a valid number (e.g., 1.5 for 1.5 SOL)"])
  | Except.ok amount =>
      if amount.leZero then
        (1, [Event.eprintln "Error: Amount must be greater than 0"])
      else
        let amountLamports := solToLamports amount
        let pre := [Event.println ("Validator pubkey: " ++ address),
                    Event.println ("PDA Address: " ++ base58Encode depositKey),
                    Event.println ("Funding PDA with " ++ toString amountLamports ++
                      " lamports from keypair: " ++ keypairPath),
                    Event.println "Checking validator gossip status before funding..."]
        match pda_fund_address env validatorId keypairPath amount with
        | (Except.ok sig, evs) =>
            (0, pre ++ evs ++
              [Event.println "Transaction successful!",
               Event.println ("Transaction signature: " ++ sig),
               Event.println "Transferred to PDA"])
        | (Except.error e, evs) =>
            (1, pre ++ evs ++ [Event.eprintln ("Error funding PDA: " ++ e)])

/-- `main` from `src/main.rs` (lines 211–363): argument-count check, blank
checks, base58 validation, operation-name check, fund arity check, pubkey
parsing, PDA derivation, then dispatch to the operation branch. -/
def mainRun (env : Env) (args : List String) (amountParse : Except Unit F64) :
    Nat × List Event :=
  if args.length < 3 then
    (1, [Event.eprintln "Error: Please provide operation name and validator address as parameters"])
  else
    let operation := args.getD 1 ""
    let address := args.getD 2 ""
    if isBlank operation then
      (1, [Event.eprintln "Error: Operation parameter cannot be empty"])
    else if isBlank address then
      (1, [Event.eprintln "Error: Validator address parameter cannot be empty"])
    else
      match validate_base58 address with
      | Except.error e =>
          (1, [Event.eprintln ("Error: Invalid validator address format: " ++ e),
               Event.eprintln "Validator address must be a valid base58 encoded string"])
      | Except.ok _ =>
          if operation != "pda-address" && operation != "pda-balance" &&
              operation != "pda-fund-address" then
            (1, [Event.eprintln ("Error: Unknown operation " ++ operation)])
          else if operation == "pda-fund-address" && args.length < 5 then
            (1, [Event.eprintln "Error: pda-fund-address requires keypair path and amount parameters"])
          else
            match parse_pubkey address with
            | Except.error e => (1, [Event.eprintln ("Error: " ++ e)])
            | Except.ok validatorId =>
                match generate_deposit_pda env.oracle validatorId with
                | none => (101, [Event.derivePda, Event.panicked])
                | some depositKey =>
                    let r :=
                      if operation == "pda-address" then
                        pdaAddressBranch env address validatorId depositKey
                      else if operation == "pda-balance" then
                        pdaBalanceBranch env address validatorId depositKey
                      else
                        pdaFundBranch env address (args.getD 3 "") validatorId depositKey
                          amountParse
                    (r.fst, Event.derivePda :: r.snd)

/-! ## Derived notions and concrete fixtures used by the theorems -/

/-- Decidable equality for `Except`, used to evaluate run results on concrete
inputs. -/
instance {ε α : Type} [DecidableEq ε] [DecidableEq α] : DecidableEq (Except ε α) := fun a b =>
  match a, b with
  | Except.ok x, Except.ok y =>
      if h : x = y then Decidable.isTrue (by rw [h])
      else Decidable.isFalse (fun hc => h (by injection hc))
  | Except.error x, Except.error y =>
      if h : x = y then Decidable.isTrue (by rw [h])
      else Decidable.isFalse (fun hc => h (by injection hc))
  | Except.ok _, Except.error _ => Decidable.isFalse (fun hc => Except.noConfusion hc)
  | Except.error _, Except.ok _ => Decidable.isFalse (fun hc => Except.noConfusion hc)

/-- The funding decision actually computed by the liveness gate, as a total
boolean: cancel on lookup error, cancel on absence, proceed on presence. -/
def gateDecision (env : Env) (validatorId : Bytes) : Bool :=
  match env.clusterNodes with
  | Except.error _ => true
  | Except.ok nodes => !(nodes.contains (base58Encode validatorId))

/-- The hash computed by `create_program_address` for given seeds, program id
and bump byte. -/
def pdaHashAt (o : HashOracle) (seeds : List Bytes) (programId : Bytes) (b : Nat) : Bytes :=
  o.sha256 ((seeds ++ [[b]]).foldr (fun s acc => s ++ acc) [] ++ programId ++ pdaMarker)

/-- An oracle whose hash is constantly zero and that reports every point
off-curve; used to run the model on concrete inputs. -/
def trivialOracle : HashOracle :=
  { sha256 := fun _ => List.replicate 32 0, isOnCurve := fun _ => false }

/-- A valid base58 identity (the system program address). -/
def sysAddr : String := "11111111111111111111111111111112"

/-- The 32 bytes `sysAddr` decodes to. -/
def sysId : Bytes := List.replicate 31 0 ++ [1]

/-- An environment where `sysId` is present in gossip and every external call
succeeds. -/
def envPresent : Env :=
  { clusterNodes := Except.ok [base58Encode sysId]
  , keypairLoad := Except.ok (List.replicate 32 7)
  , blockhash := Except.ok "BH"
  , sendResult := Except.ok "SIG"
  , balance := Except.ok 5
  , oracle := trivialOracle }

/-- Like `envPresent` but the gossip snapshot does not contain `sysId`. -/
def envAbsent : Env := { envPresent with clusterNodes := Except.ok [] }

/-- Like `envPresent` but the gossip lookup fails. -/
def envGossipErr : Env := { envPresent with clusterNodes := Except.error "rpc down" }

/-- A positive fraction small enough that its product with `1e9` truncates
to zero: `2 ^ (-34) = 1 / 17179869184` (exactly representable as an `f64`,
with an exactly representable product). -/
def tinyFrac : Frac := ⟨1, 17179869184, by decide⟩

/-- The amount `1.5` (exactly representable as an `f64`). -/
def oneAndAHalf : F64 := F64.finite ⟨3, 2, by decide⟩

/-- The `f64` value written `0.3`: the nearest binary64 to `3/10`, namely
`5404319552844595 / 2^54`.  Its exact product with `1e9` is slightly below
`3e8`, but the `f64` product rounds up to exactly `300000000.0`. -/
def pointThree : F64 := F64.finite ⟨5404319552844595, 18014398509481984, by decide⟩

/-! ## Theorems -/

/-- Sanity: the hard-coded program id decodes to exactly 32 bytes. -/
theorem revenue_program_id_length : REVENUE_DISTRIBUTION_PROGRAM_ID.length = 32 := by
  decide

/-- Sanity: `sysAddr` parses to `sysId`. -/
theorem parse_sysAddr : parse_pubkey sysAddr = Except.ok sysId := by decide


/-! ### String helpers -/

/-- A plain string differs from `t ++ v` when it differs from `t` on the
first `n` characters. -/
theorem ne_append_of_take_ne (s t v : String) (n : Nat)
    (h2 : n ≤ t.data.length)
    (hne : s.data.take n ≠ t.data.take n) : s ≠ t ++ v := by
  intro h
  apply hne
  have h3 := congrArg (fun x => x.data.take n) h
  simpa [String.data_append, List.take_append_of_le_length h2] using h3

/-- Two appends differ when their left parts differ on the first `n`
characters. -/
theorem append_ne_append_of_take_ne (s u t v : String) (n : Nat)
    (h1 : n ≤ s.data.length) (h2 : n ≤ t.data.length)
    (hne : s.data.take n ≠ t.data.take n) : s ++ u ≠ t ++ v := by
  intro h
  apply hne
  have h3 := congrArg (fun x => x.data.take n) h
  simpa [String.data_append, List.take_append_of_le_length h1,
    List.take_append_of_le_length h2] using h3

/-! ### Claim C1 -/

/-- C1: the liveness gate is fail-closed.  For every identity, when the
gossip lookup returns an error, `should_cancel_pda_funding` returns exactly
`Ok(true)` (cancel funding) — the same funding decision as an explicit
not-present result — so a lookup failure never permits funding. -/
theorem C1_gate_fail_closed (env envA : Env) (vid : Bytes) (e : String)
    (nodes : List String)
    (hE : env.clusterNodes = Except.error e)
    (hA : envA.clusterNodes = Except.ok nodes)
    (hAbs : base58Encode vid ∉ nodes) :
    (should_cancel_pda_funding env vid).fst = Except.ok true ∧
    (should_cancel_pda_funding env vid).fst = (should_cancel_pda_funding envA vid).fst := by
  simp [should_cancel_pda_funding, is_validator_in_gossip, hE, hA, hAbs]

/-- Witness for C1 at a concrete failing lookup and a concrete absent
snapshot. -/
theorem C1_gate_fail_closed_witness :
    (should_cancel_pda_funding envGossipErr sysId).fst = Except.ok true ∧
    (should_cancel_pda_funding envGossipErr sysId).fst =
      (should_cancel_pda_funding envAbsent sysId).fst :=
  C1_gate_fail_closed envGossipErr envAbsent sysId "rpc down" [] rfl rfl (by decide)

/-! ### Claim C2 -/

/-- C2: when the gossip snapshot lacks the identity or the lookup errs,
`pda_fund_address` returns the cancellation error immediately, and its trace
contains only the gossip query and diagnostic prints — no keypair load, no
blockhash fetch, no transaction construction or signing, no submission. -/
theorem C2_cancel_is_immediate (env : Env) (vid : Bytes) (kp : String) (amt : F64)
    (h : (∃ e, env.clusterNodes = Except.error e) ∨
         ∃ nodes, env.clusterNodes = Except.ok nodes ∧ base58Encode vid ∉ nodes) :
    (pda_fund_address env vid kp amt).fst =
      Except.error "Funding cancelled: Validator is not in Solana gossip network" ∧
    ∀ ev ∈ (pda_fund_address env vid kp amt).snd,
      ev = Event.getClusterNodes ∨ ∃ s, ev = Event.println s := by
  rcases h with ⟨e, hE⟩ | ⟨nodes, hN, hAbs⟩
  · simp [pda_fund_address, should_cancel_pda_funding, is_validator_in_gossip, hE]
  · simp [pda_fund_address, should_cancel_pda_funding, is_validator_in_gossip, hN, hAbs]

/-- Witness for C2 at a concrete absent snapshot. -/
theorem C2_cancel_is_immediate_witness :
    (pda_fund_address envAbsent sysId "kp" oneAndAHalf).fst =
      Except.error "Funding cancelled: Validator is not in Solana gossip network" ∧
    ∀ ev ∈ (pda_fund_address envAbsent sysId "kp" oneAndAHalf).snd,
      ev = Event.getClusterNodes ∨ ∃ s, ev = Event.println s :=
  C2_cancel_is_immediate envAbsent sysId "kp" oneAndAHalf
    (Or.inr ⟨[], rfl, by decide⟩)

/-! ### Claim C9 -/

/-- C9: `should_cancel_pda_funding` never returns `Err` — its result is
always `Ok` of the total gate decision — and consequently `pda_fund_address`
can never produce the `Failed to check gossip status` error of its
`Err`-handling branch, whatever the environment. -/
theorem C9_gate_never_errs (env : Env) (vid : Bytes) (kp : String) (amt : F64) (e : String) :
    (should_cancel_pda_funding env vid).fst = Except.ok (gateDecision env vid) ∧
    (pda_fund_address env vid kp amt).fst ≠
      Except.error ("Failed to check gossip status: " ++ e) := by
  have hfst : (should_cancel_pda_funding env vid).fst = Except.ok (gateDecision env vid) := by
    rcases hC : env.clusterNodes with e2 | nodes
    · simp [should_cancel_pda_funding, is_validator_in_gossip, gateDecision, hC]
    · by_cases hm : base58Encode vid ∈ nodes <;>
        simp [should_cancel_pda_funding, is_validator_in_gossip, gateDecision, hC, hm]
  refine ⟨hfst, ?_⟩
  rcases hS : should_cancel_pda_funding env vid with ⟨r, evs⟩
  have hr : r = Except.ok (gateDecision env vid) := by
    have := hfst; rw [hS] at this; exact this
  subst hr
  cases hgd : gateDecision env vid
  · rw [hgd] at hS
    rcases hK : env.keypairLoad with e2 | kpb
    · simp [pda_fund_address, hS, hK]
      exact append_ne_append_of_take_ne "Failed to read keypair from " _
        "Failed to check gossip status: " _ 11 (by decide) (by decide) (by decide)
    · rcases hG : generate_deposit_pda env.oracle vid with _ | pda
      · simp [pda_fund_address, hS, hK, hG]
        exact ne_append_of_take_ne "panicked: Unable to find a viable program address bump seed"
          "Failed to check gossip status: " _ 1 (by decide) (by decide)
      · rcases hB : env.blockhash with e2 | bh
        · simp [pda_fund_address, hS, hK, hG, hB]
          exact append_ne_append_of_take_ne "Failed to get recent blockhash: " _
            "Failed to check gossip status: " _ 11 (by decide) (by decide) (by decide)
        · rcases hT : env.sendResult with e2 | sig
          · simp [pda_fund_address, hS, hK, hG, hB, hT]
            exact append_ne_append_of_take_ne "Failed to send transaction: " _
              "Failed to check gossip status: " _ 11 (by decide) (by decide) (by decide)
          · simp [pda_fund_address, hS, hK, hG, hB, hT]
  · rw [hgd] at hS
    simp [pda_fund_address, hS]
    exact ne_append_of_take_ne "Funding cancelled: Validator is not in Solana gossip network"
      "Failed to check gossip status: " _ 2 (by decide) (by decide)

/-! ### Claim C10 -/

/-- C10: for the `pda-balance` operation a gossip failure is non-fatal — the
run prints the gossip error and a warning, still performs the balance query
and (when that query succeeds) prints the PDA balance, and its exit code
depends only on the balance query outcome (0 on success, 1 on failure). -/
theorem C10_balance_gossip_failure_nonfatal (env : Env) (prog addr : String)
    (vid pda : Bytes) (e : String) (ap : Except Unit F64)
    (hB : isBlank addr = false)
    (hV : validate_base58 addr = Except.ok ())
    (hP : parse_pubkey addr = Except.ok vid)
    (hD : generate_deposit_pda env.oracle vid = some pda)
    (hE : env.clusterNodes = Except.error e) :
    Event.println ("Error checking gossip network: " ++ ("Failed to get cluster nodes: " ++ e)) ∈
      (mainRun env [prog, "pda-balance", addr] ap).snd ∧
    Event.println "Warning: Unable to verify validator status - proceed with caution." ∈
      (mainRun env [prog, "pda-balance", addr] ap).snd ∧
    Event.getBalance ∈ (mainRun env [prog, "pda-balance", addr] ap).snd ∧
    (∀ bal, env.balance = Except.ok bal →
      Event.println ("PDA Balance: " ++ toString bal ++ " lamports") ∈
        (mainRun env [prog, "pda-balance", addr] ap).snd) ∧
    (mainRun env [prog, "pda-balance", addr] ap).fst =
      (match env.balance with | Except.ok _ => 0 | Except.error _ => 1) := by
  have h1 : isBlank "pda-balance" = false := by decide
  rcases hBal : env.balance with e2 | bal <;>
    simp [mainRun, pdaBalanceBranch, is_validator_in_gossip, h1, hB, hV, hP, hD, hE, hBal,
      List.getD]

/-- Witness for C10 at a concrete failing gossip lookup with a succeeding
balance query. -/
theorem C10_balance_gossip_failure_nonfatal_witness :
    Event.println ("Error checking gossip network: " ++
        ("Failed to get cluster nodes: " ++ "rpc down")) ∈
      (mainRun envGossipErr ["prog", "pda-balance", sysAddr] (Except.error ())).snd ∧
    Event.println "Warning: Unable to verify validator status - proceed with caution." ∈
      (mainRun envGossipErr ["prog", "pda-balance", sysAddr] (Except.error ())).snd ∧
    Event.getBalance ∈
      (mainRun envGossipErr ["prog", "pda-balance", sysAddr] (Except.error ())).snd ∧
    (∀ bal, envGossipErr.balance = Except.ok bal →
      Event.println ("PDA Balance: " ++ toString bal ++ " lamports") ∈
        (mainRun envGossipErr ["prog", "pda-balance", sysAddr] (Except.error ())).snd) ∧
    (mainRun envGossipErr ["prog", "pda-balance", sysAddr] (Except.error ())).fst =
      (match envGossipErr.balance with | Except.ok _ => 0 | Except.error _ => 1) :=
  C10_balance_gossip_failure_nonfatal envGossipErr "prog" sysAddr sysId
    (List.replicate 32 0) "rpc down" (Except.error ())
    (by decide) (by decide) (by decide) (by decide) rfl

/-! ### Claim C4 -/

/-- C4 counterexample: on a valid identity the `pda-address` operation DOES
perform a gossip membership query, contradicting the claim that it only
derives and prints. -/
theorem C4_counterexample :
    Event.getClusterNodes ∈
      (mainRun envPresent ["prog", "pda-address", sysAddr] (Except.error ())).snd := by
  decide

/-- C4 amended: for every valid identity, `pda-address` derives and prints
the PDA and additionally performs a gossip membership query whose outcome
affects only diagnostic output — the exit code is 0 and the PDA is printed in
every gossip outcome — and it performs no other external-service call (no
balance query, no keypair load, no blockhash fetch, no submission). -/
theorem C4_pda_address_behavior (env : Env) (prog addr : String) (vid pda : Bytes)
    (ap : Except Unit F64)
    (hB : isBlank addr = false)
    (hV : validate_base58 addr = Except.ok ())
    (hP : parse_pubkey addr = Except.ok vid)
    (hD : generate_deposit_pda env.oracle vid = some pda) :
    (mainRun env [prog, "pda-address", addr] ap).fst = 0 ∧
    Event.getClusterNodes ∈ (mainRun env [prog, "pda-address", addr] ap).snd ∧
    Event.println ("PDA Address: " ++ base58Encode pda) ∈
      (mainRun env [prog, "pda-address", addr] ap).snd ∧
    Event.getBalance ∉ (mainRun env [prog, "pda-address", addr] ap).snd ∧
    Event.readKeypair ∉ (mainRun env [prog, "pda-address", addr] ap).snd ∧
    Event.getLatestBlockhash ∉ (mainRun env [prog, "pda-address", addr] ap).snd ∧
    ∀ n, Event.sendTransaction n ∉ (mainRun env [prog, "pda-address", addr] ap).snd := by
  have h1 : isBlank "pda-address" = false := by decide
  rcases hC : env.clusterNodes with e2 | nodes
  · simp [mainRun, pdaAddressBranch, is_validator_in_gossip, h1, hB, hV, hP, hD, hC, List.getD]
  · by_cases hm : base58Encode vid ∈ nodes <;>
      simp [mainRun, pdaAddressBranch, is_validator_in_gossip, h1, hB, hV, hP, hD, hC, hm,
        List.getD]

/-- Witness for the amended C4 at a concrete valid identity. -/
theorem C4_pda_address_behavior_witness :
    (mainRun envPresent ["prog", "pda-address", sysAddr] (Except.error ())).fst = 0 ∧
    Event.getClusterNodes ∈
      (mainRun envPresent ["prog", "pda-address", sysAddr] (Except.error ())).snd ∧
    Event.println ("PDA Address: " ++ base58Encode (List.replicate 32 0)) ∈
      (mainRun envPresent ["prog", "pda-address", sysAddr] (Except.error ())).snd ∧
    Event.getBalance ∉
      (mainRun envPresent ["prog", "pda-address", sysAddr] (Except.error ())).snd ∧
    Event.readKeypair ∉
      (mainRun envPresent ["prog", "pda-address", sysAddr] (Except.error ())).snd ∧
    Event.getLatestBlockhash ∉
      (mainRun envPresent ["prog", "pda-address", sysAddr] (Except.error ())).snd ∧
    ∀ n, Event.sendTransaction n ∉
      (mainRun envPresent ["prog", "pda-address", sysAddr] (Except.error ())).snd :=
  C4_pda_address_behavior envPresent "prog" sysAddr sysId (List.replicate 32 0)
    (Except.error ()) (by decide) (by decide) (by decide) (by decide)

/-! ### Claim C6 -/

/-- Helper for C6: each invalid-identity class makes one of the sequential
checks of `main` fail (blank check, base58 validation, or pubkey parse). -/
theorem invalid_addr_cases (addr : String)
    (h : addr.toList.all Char.isWhitespace = true ∨
         (∃ c ∈ addr.toList, base58Alphabet.contains c = false) ∨
         ∃ b, base58Decode addr = some b ∧ b.length ≠ 32) :
    isBlank addr = true ∨
    (∃ m, validate_base58 addr = Except.error m) ∨
    (∃ m, parse_pubkey addr = Except.error m) := by
  rcases h with h1 | ⟨c, hc, hcont⟩ | ⟨b, hb, hlen⟩
  · exact Or.inl h1
  · by_cases hib : isBlank addr = true
    · exact Or.inl hib
    · refine Or.inr (Or.inl ?_)
      rcases hF : addr.toList.find? (fun ch => !(base58Alphabet.contains ch)) with _ | ch
      · exact absurd (by rw [hcont]; rfl) (List.find?_eq_none.mp hF c hc)
      · refine ⟨"Invalid base58 character found in address", ?_⟩
        unfold validate_base58
        rw [if_neg hib, hF]
  · by_cases hib : isBlank addr = true
    · exact Or.inl hib
    · rcases hV : validate_base58 addr with m | u
      · exact Or.inr (Or.inl ⟨m, rfl⟩)
      · refine Or.inr (Or.inr ?_)
        by_cases hL : addr.length > 44
        · exact ⟨"Invalid pubkey format: string too long", by simp [parse_pubkey, hL]⟩
        · exact ⟨"Invalid pubkey format: wrong size", by simp [parse_pubkey, hL, hb, hlen]⟩

/-- C6: for every identity argument that is empty or all-whitespace, contains
a character outside the base58 alphabet, or decodes to a byte length other
than 32, the CLI exits with code 1 and never attempts a PDA derivation —
whatever the operation and remaining arguments. -/
theorem C6_invalid_identity_rejected (env : Env) (prog op addr : String)
    (rest : List String) (ap : Except Unit F64)
    (h : addr.toList.all Char.isWhitespace = true ∨
         (∃ c ∈ addr.toList, base58Alphabet.contains c = false) ∨
         ∃ b, base58Decode addr = some b ∧ b.length ≠ 32) :
    (mainRun env (prog :: op :: addr :: rest) ap).fst = 1 ∧
    Event.derivePda ∉ (mainRun env (prog :: op :: addr :: rest) ap).snd := by
  have hlen3 : ¬(rest.length + 1 + 1 + 1 < 3) := by omega
  have hba : isBlank "pda-address" = false := by decide
  have hbb : isBlank "pda-balance" = false := by decide
  have hbf : isBlank "pda-fund-address" = false := by decide
  rcases invalid_addr_cases addr h with hib | ⟨m, hVerr⟩ | ⟨m, hPerr⟩
  · by_cases hOpB : isBlank op = true <;>
      simp [mainRun, hlen3, hOpB, hib, List.getD]
  · by_cases hOpB : isBlank op = true
    · simp [mainRun, hlen3, hOpB, List.getD]
    · by_cases hAB : isBlank addr = true
      · simp [mainRun, hlen3, hOpB, hAB, List.getD]
      · simp [mainRun, hlen3, hOpB, hAB, hVerr, List.getD]
  · by_cases hOpB : isBlank op = true
    · simp [mainRun, hlen3, hOpB, List.getD]
    · by_cases hAB : isBlank addr = true
      · simp [mainRun, hlen3, hOpB, hAB, List.getD]
      · rcases hV : validate_base58 addr with m2 | u
        · simp [mainRun, hlen3, hOpB, hAB, hV, List.getD]
        · by_cases hopf : op = "pda-fund-address"
          · by_cases har5 : rest.length + 1 + 1 + 1 < 5
            · simp [mainRun, hlen3, hOpB, hAB, hV, hopf, har5, hbf, List.getD]
            · simp [mainRun, hlen3, hOpB, hAB, hV, hopf, har5, hbf, hPerr, List.getD]
          · by_cases hopa : op = "pda-address"
            · simp [mainRun, hlen3, hOpB, hAB, hV, hopa, hba, hPerr, List.getD]
            · by_cases hopb : op = "pda-balance"
              · simp [mainRun, hlen3, hOpB, hAB, hV, hopb, hbb, hPerr, List.getD]
              · simp [mainRun, hlen3, hOpB, hAB, hV, hopf, hopa, hopb, List.getD]

/-- Witness for C6 at the empty identity string. -/
theorem C6_invalid_identity_rejected_witness :
    (mainRun envPresent ("prog" :: "pda-address" :: "" :: []) (Except.error ())).fst = 1 ∧
    Event.derivePda ∉
      (mainRun envPresent ("prog" :: "pda-address" :: "" :: []) (Except.error ())).snd :=
  C6_invalid_identity_rejected envPresent "prog" "pda-address" "" [] (Except.error ())
    (Or.inl (by decide))

/-! ### Claim C7 -/

/-- Helper: every run of `pda_fund_address` performs the gossip query. -/
theorem gossip_event_in_fund (env : Env) (vid : Bytes) (kp : String) (amt : F64) :
    Event.getClusterNodes ∈ (pda_fund_address env vid kp amt).snd := by
  rcases hC : env.clusterNodes with e | nodes
  · simp [pda_fund_address, should_cancel_pda_funding, is_validator_in_gossip, hC]
  · by_cases hm : base58Encode vid ∈ nodes
    · rcases hK : env.keypairLoad with e2 | kpb
      · simp [pda_fund_address, should_cancel_pda_funding, is_validator_in_gossip, hC, hm, hK]
      · rcases hG : generate_deposit_pda env.oracle vid with _ | pda
        · simp [pda_fund_address, should_cancel_pda_funding, is_validator_in_gossip, hC, hm,
            hK, hG]
        · rcases hBH : env.blockhash with e2 | bh
          · simp [pda_fund_address, should_cancel_pda_funding, is_validator_in_gossip, hC, hm,
              hK, hG, hBH]
          · rcases hT : env.sendResult with e2 | sig <;>
              simp [pda_fund_address, should_cancel_pda_funding, is_validator_in_gossip, hC, hm,
                hK, hG, hBH, hT]
    · simp [pda_fund_address, should_cancel_pda_funding, is_validator_in_gossip, hC, hm]

/-- C7 counterexample: the amount argument `nan` parses (Rust `f64` parsing
accepts it), `NaN <= 0.0` is false, so the run is NOT rejected: it reaches
the liveness check and (here) exits 0 — contradicting the claim that every
non-numeric amount is rejected with exit code 1 before the liveness check and
that only strictly positive decimals reach the workflow. -/
theorem C7_counterexample :
    (mainRun envPresent ["prog", "pda-fund-address", sysAddr, "kp", "nan"]
        (Except.ok F64.nan)).fst = 0 ∧
    Event.getClusterNodes ∈
      (mainRun envPresent ["prog", "pda-fund-address", sysAddr, "kp", "nan"]
        (Except.ok F64.nan)).snd :=
  ⟨by decide, by decide⟩

/-- C7 amended: an amount argument is rejected with exit code 1 before the
liveness check exactly when it fails to parse as an `f64` or parses to a
value `v` with `v <= 0.0` true; any other parse result — including NaN and
positive infinity, for which `v <= 0.0` is false — reaches the funding
workflow and its liveness check. -/
theorem C7_amount_validation (env : Env) (prog addr kp amtStr : String) (vid pda : Bytes)
    (ap : Except Unit F64)
    (hB : isBlank addr = false)
    (hV : validate_base58 addr = Except.ok ())
    (hP : parse_pubkey addr = Except.ok vid)
    (hD : generate_deposit_pda env.oracle vid = some pda) :
    (ap = Except.error () →
      (mainRun env [prog, "pda-fund-address", addr, kp, amtStr] ap).fst = 1 ∧
      Event.getClusterNodes ∉
        (mainRun env [prog, "pda-fund-address", addr, kp, amtStr] ap).snd) ∧
    (∀ v, ap = Except.ok v → v.leZero = true →
      (mainRun env [prog, "pda-fund-address", addr, kp, amtStr] ap).fst = 1 ∧
      Event.getClusterNodes ∉
        (mainRun env [prog, "pda-fund-address", addr, kp, amtStr] ap).snd) ∧
    (∀ v, ap = Except.ok v → v.leZero = false →
      Event.getClusterNodes ∈
        (mainRun env [prog, "pda-fund-address", addr, kp, amtStr] ap).snd) := by
  have hbf : isBlank "pda-fund-address" = false := by decide
  refine ⟨?_, ?_, ?_⟩
  · intro hap
    subst hap
    simp [mainRun, pdaFundBranch, hbf, hB, hV, hP, hD, List.getD]
  · intro v hap hlz
    subst hap
    simp [mainRun, pdaFundBranch, hbf, hB, hV, hP, hD, hlz, List.getD]
  · intro v hap hlz
    subst hap
    have hg := gossip_event_in_fund env vid kp v
    rcases hPF : pda_fund_address env vid kp v with ⟨r, evs⟩
    rw [hPF] at hg
    rcases r with e2 | sig <;>
      simp [mainRun, pdaFundBranch, hbf, hB, hV, hP, hD, hlz, hPF, List.getD] <;>
      tauto

/-- Witness for the amended C7: a parse failure is rejected before the
liveness check. -/
theorem C7_amount_validation_witness :
    (mainRun envPresent ["prog", "pda-fund-address", sysAddr, "kp", "x"]
        (Except.error ())).fst = 1 ∧
    Event.getClusterNodes ∉
      (mainRun envPresent ["prog", "pda-fund-address", sysAddr, "kp", "x"]
        (Except.error ())).snd :=
  (C7_amount_validation envPresent "prog" sysAddr "kp" "x" sysId (List.replicate 32 0)
    (Except.error ()) (by decide) (by decide) (by decide) (by decide)).1 rfl

/-! ### Claim C3 -/

/-- C3 counterexample: the positive amount `1 / 2^34` has
`solToLamports = 0`, yet the workflow does NOT return an invalid-amount
error — with the validator present and all client calls succeeding it
succeeds and submits a transfer of 0 lamports, contradicting the claim that
a positive amount truncating to 0 is rejected with nothing submitted. -/
theorem C3_counterexample :
    0 < tinyFrac.num ∧
    solToLamports (F64.finite tinyFrac) = 0 ∧
    (pda_fund_address envPresent sysId "kp" (F64.finite tinyFrac)).fst = Except.ok "SIG" ∧
    Event.sendTransaction 0 ∈
      (pda_fund_address envPresent sysId "kp" (F64.finite tinyFrac)).snd :=
  ⟨by decide, by decide, by decide, by decide⟩

/-- C3 amended: the amount is converted by truncating multiplication with the
fixed scale `1e9`, but the workflow performs NO check on the converted
minor-unit value: for every positive amount whose conversion truncates to 0,
when the gate reports present and the client calls succeed, the workflow
proceeds and submits a transfer of 0 minor units. -/
theorem C3_no_minor_unit_check (env : Env) (vid : Bytes) (kp : String) (f : Frac)
    (nodes : List String) (sig : String) (kpb pda : Bytes) (bh : String)
    (hN : env.clusterNodes = Except.ok nodes) (hMem : base58Encode vid ∈ nodes)
    (hK : env.keypairLoad = Except.ok kpb)
    (hG : generate_deposit_pda env.oracle vid = some pda)
    (hBH : env.blockhash = Except.ok bh)
    (hS : env.sendResult = Except.ok sig)
    (_hpos : 0 < f.num)
    (h0 : solToLamports (F64.finite f) = 0) :
    (pda_fund_address env vid kp (F64.finite f)).fst = Except.ok sig ∧
    Event.sendTransaction 0 ∈ (pda_fund_address env vid kp (F64.finite f)).snd := by
  simp [pda_fund_address, should_cancel_pda_funding, is_validator_in_gossip,
    hN, hMem, hK, hG, hBH, hS, h0]

/-- Witness for the amended C3 at the concrete amount `1 / 2^34`. -/
theorem C3_no_minor_unit_check_witness :
    (pda_fund_address envPresent sysId "kp" (F64.finite tinyFrac)).fst = Except.ok "SIG" ∧
    Event.sendTransaction 0 ∈
      (pda_fund_address envPresent sysId "kp" (F64.finite tinyFrac)).snd :=
  C3_no_minor_unit_check envPresent sysId "kp" tinyFrac [base58Encode sysId] "SIG"
    (List.replicate 32 7) (List.replicate 32 0) "BH"
    rfl (by decide) rfl (by decide) rfl rfl (by decide) (by decide)

/-! ### Claim C8 -/

/-- Helper: characterization of the fuel-based floor log2. -/
theorem log2fuel_correct : ∀ fuel n, 1 ≤ n → n ≤ fuel →
    2 ^ log2fuel fuel n ≤ n ∧ n < 2 ^ (log2fuel fuel n + 1) := by
  intro fuel
  induction fuel with
  | zero => intro n h1 h2; omega
  | succ k ih =>
      intro n h1 h2
      by_cases h : 2 ≤ n
      · have hrec := ih (n / 2) (by omega) (by omega)
        simp only [log2fuel, if_pos h]
        have hp : (2:Nat) ^ (log2fuel k (n / 2) + 1) = 2 * 2 ^ log2fuel k (n / 2) := by ring
        have hp2 : (2:Nat) ^ (log2fuel k (n / 2) + 1 + 1) = 2 * 2 ^ (log2fuel k (n / 2) + 1) := by
          ring
        omega
      · simp only [log2fuel, if_neg h]
        omega

/-- Helper: characterization of `natLog2`. -/
theorem natLog2_correct (n : Nat) (h : 1 ≤ n) :
    2 ^ natLog2 n ≤ n ∧ n < 2 ^ (natLog2 n + 1) :=
  log2fuel_correct n n h le_rfl

/-- Helper: for `1 ≤ m < 2^53` the floor log2 of `(m * d) / d` is at
most 52, so the rounding ulp exponent for such a value is nonpositive. -/
theorem ilog2_mul_le (m d : Nat) (hm1 : 1 ≤ m) (hm : m < 2 ^ 53) (hd : 1 ≤ d) :
    ilog2 (m * d) d ≤ 52 := by
  obtain ⟨ha1, ha2⟩ := natLog2_correct (m * d) (Nat.one_le_iff_ne_zero.mpr (by positivity))
  obtain ⟨hb1, hb2⟩ := natLog2_correct d hd
  have hab : natLog2 (m * d) ≤ natLog2 d + 53 := by
    by_contra hcon
    push_neg at hcon
    have h1 : (2:Nat) ^ (natLog2 d + 54) ≤ 2 ^ natLog2 (m * d) :=
      Nat.pow_le_pow_right (by decide) (by omega)
    have h2 : m * d < 2 ^ 53 * 2 ^ (natLog2 d + 1) :=
      Nat.mul_lt_mul_of_lt_of_lt hm hb2
    have h3 : (2:Nat) ^ 53 * 2 ^ (natLog2 d + 1) = 2 ^ (natLog2 d + 54) := by ring
    omega
  unfold ilog2
  by_cases h0 : 0 ≤ (natLog2 (m * d) : Int) - (natLog2 d : Int)
  · rw [if_pos h0]
    by_cases ht : d * 2 ^ ((natLog2 (m * d) : Int) - (natLog2 d : Int)).toNat ≤ m * d
    · rw [if_pos ht]
      have h2 : 2 ^ ((natLog2 (m * d) : Int) - (natLog2 d : Int)).toNat ≤ m := by
        have hk : 2 ^ ((natLog2 (m * d) : Int) - (natLog2 d : Int)).toNat * d ≤ m * d := by
          calc 2 ^ ((natLog2 (m * d) : Int) - (natLog2 d : Int)).toNat * d
              = d * 2 ^ ((natLog2 (m * d) : Int) - (natLog2 d : Int)).toNat := by ring
            _ ≤ m * d := ht
        exact Nat.le_of_mul_le_mul_right hk (by omega)
      have h4 : ((natLog2 (m * d) : Int) - (natLog2 d : Int)).toNat < 53 := by
        by_contra hc
        push_neg at hc
        have : (2:Nat) ^ 53 ≤ 2 ^ ((natLog2 (m * d) : Int) - (natLog2 d : Int)).toNat :=
          Nat.pow_le_pow_right (by decide) hc
        omega
      omega
    · rw [if_neg ht]
      omega
  · rw [if_neg h0]
    split <;> omega

/-- Helper: rounding an exact multiple of the denominator is exact. -/
theorem roundHalfEven_mul (a d : Nat) (hd : 1 ≤ d) : roundHalfEven (a * d) d = a := by
  unfold roundHalfEven
  have h1 : a * d / d = a := Nat.mul_div_cancel a (by omega)
  have h2 : a * d % d = 0 := Nat.mul_mod_left a d
  simp only [h1, h2]
  rw [if_pos (by omega)]

/-- Helper: rounding a value that is exactly an integer `m < 2^53` (hence
exactly representable) returns it unchanged, and its truncation recovers
`m`. -/
theorem roundPosF64_exact (m d : Nat) (hm1 : 1 ≤ m) (hm : m < 2 ^ 53) (hd : 1 ≤ d) :
    ∃ k : Nat, roundPosF64 (m * d) d = some ⟨(m * 2 ^ k : Nat), 2 ^ k, Nat.two_pow_pos k⟩ := by
  have hle52 := ilog2_mul_le m d hm1 hm hd
  simp only [roundPosF64]
  by_cases hp : 0 ≤ max (ilog2 (m * d) d - 52) (-1074 : Int)
  · have hp0 : max (ilog2 (m * d) d - 52) (-1074 : Int) = 0 := by omega
    rw [if_pos hp, hp0]
    simp only [Int.toNat_zero, pow_zero, mul_one]
    rw [roundHalfEven_mul m d hd]
    rw [if_pos (by calc m < 2 ^ 53 := hm
                  _ < 2 ^ 1024 := by norm_num)]
    exact ⟨0, by simp⟩
  · rw [if_neg hp]
    refine ⟨(-max (ilog2 (m * d) d - 52) (-1074 : Int)).toNat, ?_⟩
    rw [mul_right_comm, roundHalfEven_mul _ d hd]

/-- Helper: the full conversion on an amount whose exact product with `1e9`
is an integer `m < 2^53`: the floating-point product is exact and the
truncating cast yields `m`. -/
theorem solToLamports_exact (f : Frac) (m : Nat) (hm : m < 2 ^ 53)
    (hrep : f.num * 1000000000 = (m : Int) * (f.den : Int)) :
    solToLamports (F64.finite f) = m := by
  have hd := f.den_pos
  rcases Nat.eq_zero_or_pos m with hm0 | hm1
  · subst hm0
    have hnum : f.num = 0 := by
      have h9 : f.num * 1000000000 = 0 := by rw [hrep]; ring
      omega
    simp [solToLamports, F64.mulScale, roundF64, hnum, F64.toU64]
  · have hnum1 : 0 < f.num * 1000000000 := by
      rw [hrep]
      have h1 : (1 : Int) ≤ (m : Int) := by exact_mod_cast hm1
      have h2 : (1 : Int) ≤ (f.den : Int) := by exact_mod_cast hd
      nlinarith
    have htn : (f.num * 1000000000).toNat = m * f.den := by
      rw [hrep, ← Int.natCast_mul, Int.toNat_natCast]
    obtain ⟨k, hg⟩ := roundPosF64_exact m f.den hm1 hm hd
    simp only [solToLamports, F64.mulScale, roundF64]
    rw [if_neg (by omega), if_pos hnum1, htn, hg]
    simp only [F64.toU64]
    have hmk : 0 < m * 2 ^ k := Nat.mul_pos hm1 (Nat.two_pow_pos k)
    rw [if_neg (by omega), Int.toNat_natCast, Nat.mul_div_cancel m (Nat.two_pow_pos k)]
    have h53 : (2:Nat) ^ 53 ≤ 2 ^ 64 - 1 := by norm_num
    omega

set_option maxRecDepth 10000 in
/-- C8: amount-to-minor-unit conversion computes the IEEE binary64 product of
the amount with the fixed scale `1e9` and truncates it with the saturating
`as u64` cast.  Whenever the exact product is an integer `m < 2^53` it is
exactly representable, so the floating-point product introduces no error and
the conversion yields exactly `m` — in particular the amount `1.5` converts
to exactly `1500000000`.  Additionally, at the `f64` value written `0.3`
(whose exact product `299999999.9999999850…` is not an integer) the rounded
product is exactly `3e8`, so the conversion yields `300000000`, as the
program does. -/
theorem C8_truncating_conversion (f : Frac) (m : Nat) (hm : m < 2 ^ 53)
    (hrep : f.num * 1000000000 = (m : Int) * (f.den : Int)) :
    solToLamports (F64.finite f) = m ∧
    f.val * 1000000000 = (m : ℚ) ∧
    solToLamports oneAndAHalf = 1500000000 ∧
    solToLamports pointThree = 300000000 := by
  refine ⟨solToLamports_exact f m hm hrep, ?_, by decide, by decide⟩
  unfold Frac.val
  have hd := f.den_pos
  have hdq : ((f.den : ℚ)) ≠ 0 := by positivity
  field_simp
  exact_mod_cast hrep

set_option maxRecDepth 10000 in
/-- Witness for C8 at the amount `1.5 = 3 / 2` converting to `1500000000`. -/
theorem C8_truncating_conversion_witness :
    solToLamports (F64.finite ⟨3, 2, by decide⟩) = 1500000000 ∧
    (Frac.val ⟨3, 2, by decide⟩) * 1000000000 = (1500000000 : ℚ) ∧
    solToLamports oneAndAHalf = 1500000000 ∧
    solToLamports pointThree = 300000000 :=
  C8_truncating_conversion ⟨3, 2, by decide⟩ 1500000000 (by decide) (by decide)

/-! ### Claim C5 -/

/-- Helper: under the seed-length constraints, `create_program_address` is
the off-curve filter of the PDA hash. -/
theorem create_program_address_eq (o : HashOracle) (seeds : List Bytes) (pid : Bytes) (b : Nat)
    (hs : ∀ s ∈ seeds, s.length ≤ 32) (hn : seeds.length ≤ 15) :
    create_program_address o (seeds ++ [[b]]) pid =
      if o.isOnCurve (pdaHashAt o seeds pid b) then Except.error PubkeyError.invalidSeeds
      else Except.ok (pdaHashAt o seeds pid b) := by
  have h1 : ((seeds ++ [[b]]).any (fun s => s.length > 32)) = false := by
    rw [List.any_eq_false]
    intro s hsm
    rcases List.mem_append.mp hsm with h | h
    · simpa using Nat.not_lt.mpr (hs s h)
    · simp at h
      subst h
      simp
  have h2 : ¬(16 < seeds.length + 1) := by omega
  simp [create_program_address, pdaHashAt, h1, h2]

/-- Helper: the bump loop of `try_find_program_address` with fuel `n` finds
the largest bump in `[1, n]` whose hash is off-curve. -/
theorem tryFindLoop_eq_find (o : HashOracle) (seeds : List Bytes) (pid : Bytes)
    (hs : ∀ s ∈ seeds, s.length ≤ 32) (hn : seeds.length ≤ 15) (n : Nat) :
    tryFindLoop o seeds pid n =
      ((List.range' 1 n).reverse.find? (fun b => !(o.isOnCurve (pdaHashAt o seeds pid b)))).map
        (fun b => (pdaHashAt o seeds pid b, b)) := by
  induction n with
  | zero => simp [tryFindLoop]
  | succ m ih =>
      rw [List.range'_concat]
      have hc := create_program_address_eq o seeds pid (m + 1) hs hn
      by_cases hoc : o.isOnCurve (pdaHashAt o seeds pid (m + 1)) = true
      · rw [if_pos hoc] at hc
        simp only [tryFindLoop, hc]
        simp [hoc, ih, Nat.add_comm]
      · rw [if_neg hoc] at hc
        simp only [tryFindLoop, hc]
        simp [hoc, Nat.add_comm]

/-- C5: `generate_deposit_pda` is exactly the platform's standard derivation:
the hash (at the first bump from 255 downward whose hash is off-curve) of
`seed ‖ identity ‖ bump ‖ program-id ‖ marker` with seed
`"solana_validator_deposit"` and the fixed program id; and the derivation is
deterministic (a pure function of the identity, given the hash oracle). -/
theorem C5_derivation_matches_standard (o : HashOracle) (id : Bytes) (hlen : id.length ≤ 32) :
    generate_deposit_pda o id =
      (((List.range' 1 255).reverse.find? (fun b =>
          !(o.isOnCurve (pdaHashAt o [depositSeed, id] REVENUE_DISTRIBUTION_PROGRAM_ID b)))).map
        (fun b => pdaHashAt o [depositSeed, id] REVENUE_DISTRIBUTION_PROGRAM_ID b)) ∧
    (∀ b, pdaHashAt o [depositSeed, id] REVENUE_DISTRIBUTION_PROGRAM_ID b =
      o.sha256 (depositSeed ++ id ++ [b] ++ REVENUE_DISTRIBUTION_PROGRAM_ID ++ pdaMarker)) ∧
    (∀ id2, id2 = id → generate_deposit_pda o id2 = generate_deposit_pda o id) := by
  refine ⟨?_, ?_, fun id2 h => by rw [h]⟩
  · unfold generate_deposit_pda find_program_address try_find_program_address
    rw [tryFindLoop_eq_find o [depositSeed, id] REVENUE_DISTRIBUTION_PROGRAM_ID ?_ (by simp) 255]
    · rw [Option.map_map]
      rfl
    · intro s hsm
      simp only [List.mem_cons, List.not_mem_nil, or_false] at hsm
      rcases hsm with h | h
      · subst h
        decide
      · subst h
        exact hlen
  · intro b
    simp [pdaHashAt, List.append_assoc]

/-- Witness for C5 at a concrete identity and oracle. -/
theorem C5_derivation_matches_standard_witness :
    (generate_deposit_pda trivialOracle sysId =
      (((List.range' 1 255).reverse.find? (fun b =>
          !(trivialOracle.isOnCurve
            (pdaHashAt trivialOracle [depositSeed, sysId]
              REVENUE_DISTRIBUTION_PROGRAM_ID b)))).map
        (fun b => pdaHashAt trivialOracle [depositSeed, sysId]
          REVENUE_DISTRIBUTION_PROGRAM_ID b))) ∧
    (∀ b, pdaHashAt trivialOracle [depositSeed, sysId] REVENUE_DISTRIBUTION_PROGRAM_ID b =
      trivialOracle.sha256
        (depositSeed ++ sysId ++ [b] ++ REVENUE_DISTRIBUTION_PROGRAM_ID ++ pdaMarker)) ∧
    (∀ id2, id2 = sysId →
      generate_deposit_pda trivialOracle id2 = generate_deposit_pda trivialOracle sysId) :=
  C5_derivation_matches_standard trivialOracle sysId (by decide)

end DZ
